import Mathlib

/-!
Verification of the text-to-record parsing core and pipeline orchestration of the
food-app backend (files `model_pipeline.py`, `app.py`, `food-backend/model_pipeline.py`).

The Python code is shallowly embedded: strings are Lean `String`s (lists of code
points, matching Python's code-point view of `str`), Python's `str` methods are
re-implemented structurally below so that every definition is executable and
kernel-reducible, effectful calls to the generative-model API are abstracted as
explicit `Attempt` outcomes passed in as arguments, and Python `dict`s are modelled
as insertion-ordered association lists with Python's insert-or-overwrite semantics.
Python `float` values produced by `float(...)` are modelled as exact rationals; the
parsed number is only stored, never computed with, so exact decimal reading is a
faithful abstraction of the parse-then-store behaviour.
-/

namespace FoodApp

/-! ### Python string primitives -/

/-- The whitespace characters stripped by Python's `str.strip()` (ASCII subset). -/
def isPySpace (c : Char) : Bool :=
  c == ' ' || c == '\t' || c == '\n' || c == '\r' || c == '\x0b' || c == '\x0c'

/-- Python `str.strip()`. -/
def pyStrip (s : String) : String :=
  String.mk (((s.data.dropWhile isPySpace).reverse.dropWhile isPySpace).reverse)

/-- Worker for `pySplit`: accumulates the current piece in reverse. -/
def splitCharAux (sep : Char) : List Char → List Char → List String
  | [], acc => [String.mk acc.reverse]
  | c :: cs, acc =>
    if c = sep then String.mk acc.reverse :: splitCharAux sep cs []
    else splitCharAux sep cs (c :: acc)

/-- Python `str.split(sep)` for a single-character separator: keeps empty pieces,
`"".split(sep) == [""]`.  Also used to model `str.splitlines()` with `'\n'`
(faithful for texts without `'\r'` or other exotic line terminators). -/
def pySplit (sep : Char) (s : String) : List String := splitCharAux sep s.data []

/-- Does the first char list start with the second? -/
def listStarts : List Char → List Char → Bool
  | _, [] => true
  | [], _ :: _ => false
  | c :: cs, p :: ps => c = p && listStarts cs ps

/-- Occurrence of `pat` anywhere in the list (Python's `pat in s`). -/
def listHasSub (pat : List Char) : List Char → Bool
  | [] => pat.isEmpty
  | c :: cs => listStarts (c :: cs) pat || listHasSub pat cs

/-- Python's `pat in s` membership test on strings. -/
def pyIn (pat s : String) : Bool := listHasSub pat.data s.data

/-- Python `str.startswith(pat)`. -/
def pyStartsWith (s pat : String) : Bool := listStarts s.data pat.data

/-- ASCII lower-casing of one character (Python `str.lower()` on the ASCII range,
which covers every string the code lower-cases). -/
def asciiLower (c : Char) : Char :=
  if 'A' ≤ c ∧ c ≤ 'Z' then Char.ofNat (c.toNat + 32) else c

/-- ASCII upper-casing of one character (Python `str.upper()` on the ASCII range). -/
def asciiUpper (c : Char) : Char :=
  if 'a' ≤ c ∧ c ≤ 'z' then Char.ofNat (c.toNat - 32) else c

/-- Python `str.lower()` (ASCII). -/
def pyLower (s : String) : String := String.mk (s.data.map asciiLower)

/-- Python `str.upper()` (ASCII). -/
def pyUpper (s : String) : String := String.mk (s.data.map asciiUpper)

/-- Python `c in s` for a single character. -/
def pyHasChar (s : String) (c : Char) : Bool := s.data.any (fun x => x = c)

/-- Python `sep.join(pieces)`. -/
def pyJoin (sep : String) : List String → String
  | [] => ""
  | [x] => x
  | x :: y :: ys => x ++ sep ++ pyJoin sep (y :: ys)

/-- Fuelled worker for `pyReplace`; the fuel (length of the text) makes the
recursion structural while each step consumes at least one character. -/
def pyReplaceFuel (old new : List Char) : Nat → List Char → List Char
  | _, [] => []
  | 0, cs => cs
  | n + 1, c :: cs =>
    if listStarts (c :: cs) old ∧ old ≠ [] then
      new ++ pyReplaceFuel old new n (List.drop (old.length - 1) cs)
    else c :: pyReplaceFuel old new n cs

/-- Python `str.replace(old, new)`: all non-overlapping occurrences, left to right
(the code only calls it with a non-empty `old`). -/
def pyReplace (s old new : String) : String :=
  String.mk (pyReplaceFuel old.data new.data s.data.length s.data)

/-! ### Python numeric literal parsing (`int(...)` / `float(...)`)

`parse_to_dict` (food-backend/model_pipeline.py lines 103-117) runs
`float(parts[1]) if '.' in parts[1] else int(parts[1])` and drops the row on
`ValueError`.  The acceptors below follow CPython's grammar for ASCII inputs:
an optional sign, ASCII digits with single underscores allowed strictly between
digits, an optional fractional part and an optional exponent for `float`.
(`inf`/`nan` spellings contain no `'.'`, so they can never reach the
float branch of `parse_to_dict`.) -/

/-- Digit run with optional single underscores between digits; returns the value
and the number of digits consumed, or `none` if the run is empty or malformed. -/
def pyDigitsCnt : Nat → Nat → List Char → Option (Nat × Nat)
  | acc, cnt, [] => if cnt = 0 then none else some (acc, cnt)
  | acc, cnt, '_' :: c :: cs =>
    if cnt ≠ 0 ∧ c.isDigit then pyDigitsCnt (acc * 10 + (c.toNat - 48)) (cnt + 1) cs
    else none
  | acc, cnt, c :: cs =>
    if c.isDigit then pyDigitsCnt (acc * 10 + (c.toNat - 48)) (cnt + 1) cs else none

/-- Python `int(s)` on an already-stripped string. -/
def pyInt? (s : String) : Option Int :=
  match s.data with
  | '+' :: cs => (pyDigitsCnt 0 0 cs).map (fun p => (p.1 : Int))
  | '-' :: cs => (pyDigitsCnt 0 0 cs).map (fun p => -(p.1 : Int))
  | cs => (pyDigitsCnt 0 0 cs).map (fun p => (p.1 : Int))

/-- Splits at the first character satisfying `p`; `none` if there is none. -/
def breakOnce (p : Char → Bool) : List Char → List Char × Option (List Char)
  | [] => ([], none)
  | c :: cs =>
    if p c then ([], some cs)
    else
      let r := breakOnce p cs
      (c :: r.1, r.2)

/-- Python `float(s)` on an already-stripped string, read exactly into `ℚ`. -/
def pyFloat? (s : String) : Option ℚ :=
  let sc : ℚ × List Char :=
    match s.data with
    | '+' :: r => (1, r)
    | '-' :: r => (-1, r)
    | r => (1, r)
  let me := breakOnce (fun c => c == 'e' || c == 'E') sc.2
  let ifp := breakOnce (fun c => c == '.') me.1
  let ipv? : Option (Nat × Nat) :=
    if ifp.1 = [] then some (0, 0) else pyDigitsCnt 0 0 ifp.1
  let fp := ifp.2.getD []
  let fpv? : Option (Nat × Nat) :=
    if fp = [] then some (0, 0) else pyDigitsCnt 0 0 fp
  match ipv?, fpv? with
  | some ipv, some fpv =>
    if ipv.2 = 0 ∧ fpv.2 = 0 then none
    else
      let exp? : Option Int :=
        match me.2 with
        | none => some 0
        | some ecs =>
          let se : Int × List Char :=
            match ecs with
            | '+' :: r => (1, r)
            | '-' :: r => (-1, r)
            | r => (1, r)
          (pyDigitsCnt 0 0 se.2).map (fun p => se.1 * (p.1 : Int))
      match exp? with
      | some ex => some (sc.1 * ((ipv.1 : ℚ) + (fpv.1 : ℚ) / (10 : ℚ) ^ fpv.2) * (10 : ℚ) ^ ex)
      | none => none
  | _, _ => none

/-- The numeric value stored in a record: Python `int` or Python `float`. -/
inductive PyNum where
  | int : Int → PyNum
  | float : ℚ → PyNum
deriving DecidableEq

/-- `float(parts[1]) if '.' in parts[1] else int(parts[1])`
(food-backend/model_pipeline.py line 109). -/
def parseQuantity (s : String) : Option PyNum :=
  if pyHasChar s '.' then (pyFloat? s).map PyNum.float
  else (pyInt? s).map PyNum.int

/-! ### `parse_to_dict` (src/food-backend/model_pipeline.py lines 103-117) -/

/-- The per-name payload stored by `parse_to_dict`
(`"Quantity Number/Value"`, `"Unit"`, `"Reasoning"`). -/
structure PyRecord where
  value : PyNum
  unit : String
  reasoning : String
deriving DecidableEq

/-- Python `dict` assignment `d[k] = v`: overwrite in place if the key exists,
append otherwise (insertion order preserved, as in CPython). -/
def dictInsert (k : String) (v : PyRecord) : List (String × PyRecord) → List (String × PyRecord)
  | [] => [(k, v)]
  | (k2, v2) :: rest =>
    if k2 = k then (k2, v) :: rest else (k2, v2) :: dictInsert k v rest

/-- Python `d[k]` lookup (as an `Option`). -/
def dictLookup (k : String) : List (String × PyRecord) → Option PyRecord
  | [] => none
  | (k2, v2) :: rest => if k2 = k then some v2 else dictLookup k rest

/-- One iteration of the `parse_to_dict` loop body on a line: split on `'|'`,
strip the parts, require exactly 4 columns and a numeric quantity
(lines 106-116); `none` means the line is dropped. -/
def lineRecord? (line : String) : Option (String × PyRecord) :=
  match (pySplit '|' line).map pyStrip with
  | [name, qty, u, reason] =>
    match parseQuantity qty with
    | some v => some (name, ⟨v, u, reason⟩)
    | none => none
  | _ => none

/-- One iteration of the `parse_to_dict` loop on the accumulated dict:
assign `data_dict[parts[0]] = {...}` for a qualifying line, skip otherwise. -/
def parseStep (d : List (String × PyRecord)) (line : String) : List (String × PyRecord) :=
  match lineRecord? line with
  | some kv => dictInsert kv.1 kv.2 d
  | none => d

/-- `parse_to_dict(text)`: fold the qualifying lines into a name-keyed dict. -/
def parse_to_dict (text : String) : List (String × PyRecord) :=
  (pySplit '\n' text).foldl parseStep []

/-- The keys of a modelled dict, in insertion order. -/
def dictKeys (d : List (String × PyRecord)) : List String := d.map Prod.fst

/-- The names of the qualifying lines of `text`, in order (one entry per line
that `parse_to_dict` accepts). -/
def qualifyingNames (text : String) : List String :=
  (pySplit '\n' text).filterMap (fun l => (lineRecord? l).map Prod.fst)

/-- The qualifying lines of `text` parsed to key-record pairs, in order. -/
def qualifyingRecords (text : String) : List (String × PyRecord) :=
  (pySplit '\n' text).filterMap lineRecord?

/-! ### `parse_dynamic_response` (src/model_pipeline.py lines 234-321) -/

/-- `required_nutrients` (line 291). -/
def required_nutrients : List String :=
  ["Calories", "Protein", "Fat", "Carbohydrates", "Fiber", "Sugar", "Sodium"]

/-- `unit = "kcal" if nutrient == "Calories" else "mg" if nutrient == "Sodium" else "g"`
(line 296). -/
def nutrientUnit (n : String) : String :=
  if n = "Calories" then "kcal" else if n = "Sodium" then "mg" else "g"

/-- The synthesized line `f"{nutrient} | 0 | {unit} | Not determined from image"`
(line 297). -/
def synthLine (n : String) : String :=
  n ++ " | 0 | " ++ nutrientUnit n ++ " | Not determined from image"

/-- `line.split('|')[0].strip().lower()` (line 292). -/
def lineName (l : String) : String := pyLower (pyStrip ((pySplit '|' l).headD ""))

/-- `existing_nutrients = [line.split('|')[0].strip().lower() for line in nutrition_info if '|' in line]`
(line 292). -/
def existing_nutrients (ls : List String) : List String :=
  (ls.filter (fun l => pyHasChar l '|')).map lineName

/-- The required-nutrient completion step of `parse_dynamic_response`
(lines 290-297): append a synthesized sentinel line for each required nutrient
whose lower-cased name is absent from the pre-computed `existing_nutrients`. -/
def ensure_required_nutrients (ls : List String) : List String :=
  ls ++ (required_nutrients.filter
      (fun n => !(decide (pyLower n ∈ existing_nutrients ls)))).map synthLine

/-- Is `l` one of the synthesized sentinel lines of the completion step? -/
def isSynthLine (l : String) : Bool :=
  required_nutrients.any (fun n => l == synthLine n)

/-- The capture bucket currently active in the parse loop (`current_section`). -/
inductive Sec where
  | visible
  | hidden
  | nutrition
deriving DecidableEq

/-- Accumulator of the `parse_dynamic_response` line loop (lines 240-276). -/
structure ParseState where
  dish : String
  vis : List String
  hid : List String
  nut : List String
  sec : Option Sec
deriving DecidableEq

/-- Initial accumulator (lines 240-245). -/
def initState : ParseState := ⟨"", [], [], [], none⟩

/-- One iteration of the loop body (lines 247-276): strip the line, skip empties,
recognise section headers, and append `'|'`-lines with at least 3 columns to the
active bucket. -/
def stepLine (st : ParseState) (raw : String) : ParseState :=
  let line := pyStrip raw
  if line = "" then st
  else if pyStartsWith line "DISH NAME:" then
    { st with dish := pyStrip (pyReplace line "DISH NAME:" "") }
  else if pyIn "VISIBLE INGREDIENTS" (pyUpper line) then { st with sec := some Sec.visible }
  else if pyIn "HIDDEN INGREDIENTS" (pyUpper line) then { st with sec := some Sec.hidden }
  else if pyIn "NUTRITION ANALYSIS" (pyUpper line) ∨ pyIn "NUTRITION INFO" (pyUpper line) then
    { st with sec := some Sec.nutrition }
  else if pyHasChar line '|' then
    match st.sec with
    | some s =>
      if 3 ≤ ((pySplit '|' line).map pyStrip).length then
        match s with
        | Sec.visible => { st with vis := st.vis ++ [line] }
        | Sec.hidden => { st with hid := st.hid ++ [line] }
        | Sec.nutrition => { st with nut := st.nut ++ [line] }
      else st
    | none => st
  else st

/-- Invariant of the parse loop: every accumulated bucket line is non-empty
(the loop body skips empty stripped lines before appending). -/
def goodState (st : ParseState) : Prop :=
  (∀ l ∈ st.vis, l ≠ "") ∧ (∀ l ∈ st.hid, l ≠ "") ∧ (∀ l ∈ st.nut, l ≠ "")

/-- The keyword list of the dish-name fallback scan (line 282). -/
def keywords : List String :=
  ["VISIBLE", "HIDDEN", "NUTRITION", "INGREDIENTS", "ANALYSIS"]

/-- `line and not any(keyword in line.upper() for keyword in [...])` on the
stripped line (line 282). -/
def dishCandidate (raw : String) : Bool :=
  let l := pyStrip raw
  !(l == "") && !(keywords.any (fun k => pyIn k (pyUpper l)))

/-- The dish-name fallback scan over the first five lines (lines 279-284). -/
def dishFallback (lines : List String) : String :=
  match lines.find? dishCandidate with
  | some raw => pyStrip raw
  | none => ""

/-- The mapping returned by `parse_dynamic_response`.  The Python function
returns a dict with exactly these four keys on every path; modelling it as a
structure fixes that key set. -/
structure ParsedResponse where
  dish_name : String
  visible_ingredients : String
  hidden_ingredients : String
  nutrition_info : String
deriving DecidableEq

/-- `parse_dynamic_response(response_text)` (lines 234-312), success path.
The `try` body is total on string input, so this models the whole function for
actual strings; the `except` branch (lines 314-321) is `parse_failure_response`. -/
def parse_dynamic_response (response_text : String) : ParsedResponse :=
  let lines := pySplit '\n' (pyStrip response_text)
  let st := lines.foldl stepLine initState
  let dish1 := if st.dish = "" then dishFallback (lines.take 5) else st.dish
  let dish2 := if dish1 = "" then "Unidentified food item" else dish1
  let nut := ensure_required_nutrients st.nut
  let vis :=
    if st.vis = [] then ["Food item visible | 0 | g | Could not identify specific ingredients"]
    else st.vis
  let hid :=
    if st.hid = [] then
      ["No hidden ingredients identified | 0 | g | Could not determine cooking method"]
    else st.hid
  ⟨dish2, pyJoin "\n" vis, pyJoin "\n" hid, pyJoin "\n" nut⟩

/-- The `except` branch of `parse_dynamic_response` (lines 314-321): the constant
mapping returned when the parser itself raises, with the exception text `e`. -/
def parse_failure_response (e : String) : ParsedResponse :=
  ⟨"Analysis parsing failed",
   "Parsing error | 0 | g | " ++ e,
   "Parsing error | 0 | g | " ++ e,
   "Calories | 0 | kcal | Parsing failed\nProtein | 0 | g | Parsing failed\nFat | 0 | g | Parsing failed\nCarbohydrates | 0 | g | Parsing failed\nFiber | 0 | g | Parsing failed\nSugar | 0 | g | Parsing failed\nSodium | 0 | mg | Parsing failed"⟩

/-! ### Pipeline orchestration (src/model_pipeline.py lines 31-232, 324-389)

One outbound call to the generative model either raises a transport error or
returns a response text; an empty text is treated as a failed attempt by the
code (`if response and response.text`). -/

/-- Outcome of one outbound model call: the transport layer raised, or the call
returned the given text. -/
inductive Attempt where
  | raises (msg : String)
  | returns (text : String)
deriving DecidableEq

/-- `some text` iff the attempt succeeds with non-empty text; `none` models the
caught exception path of one retry iteration (lines 124-128, 130). -/
def runAttempt : Attempt → Option String
  | Attempt.raises _ => none
  | Attempt.returns t => if t = "" then none else some t

/-- `generate_failure_response(error_details)` (lines 209-232): the fallback text
block substituted when even the basic analysis fails.  Note that the triggering
error text is interpolated into the block three times. -/
def generate_failure_response (error_details : String) : String :=
  "Analysis failed: " ++ error_details ++
  "\n\nDISH NAME:\nUnable to analyze this image\n\nVISIBLE INGREDIENTS:\nCould not identify | 0 | g | Image analysis failed - " ++
  error_details ++
  "\n\nHIDDEN INGREDIENTS:\nCould not identify | 0 | g | Image analysis failed - " ++
  error_details ++
  "\n\nNUTRITION ANALYSIS:\nCalories | 0 | kcal | Analysis failed - unable to calculate\nProtein | 0 | g | Analysis failed - unable to calculate\nFat | 0 | g | Analysis failed - unable to calculate\nCarbohydrates | 0 | g | Analysis failed - unable to calculate\nFiber | 0 | g | Analysis failed - unable to calculate\nSugar | 0 | g | Analysis failed - unable to calculate\nSodium | 0 | mg | Analysis failed - unable to calculate\n\nERROR DETAILS: " ++
  error_details ++ "\n"

/-- `attempt_basic_analysis` (lines 149-207): one simpler call; a transport error
or an empty response is caught and converted to `generate_failure_response`
(the empty-response exception message is `"Basic analysis also failed"`). -/
def attempt_basic_analysis (basic : Attempt) : String :=
  match basic with
  | Attempt.raises m => generate_failure_response m
  | Attempt.returns t =>
    if t = "" then generate_failure_response "Basic analysis also failed" else t

/-- `analyze_image_with_gemini_dynamic` (lines 31-147): up to `max_retries = 3`
attempts of the main call (the backoff sleeps are timing only and not modelled);
after the last failed attempt it falls back to `attempt_basic_analysis`. -/
def analyze_image_with_gemini_dynamic (a1 a2 a3 basic : Attempt) : String :=
  match runAttempt a1 with
  | some t => t
  | none =>
    match runAttempt a2 with
    | some t => t
    | none =>
      match runAttempt a3 with
      | some t => t
      | none => attempt_basic_analysis basic

/-- The analysis-result mapping returned by `full_image_analysis`
(lines 366-373 on success, 381-389 in the `except` branch; the `error` key is
present only in the `except` branch).  The wall-clock `analysis_time` field is a
measurement and is not modelled. -/
structure AnalysisResult where
  dish_prediction : String
  image_description : String
  hidden_ingredients : String
  nutrition_info : String
  user_id : String
  error : Option String
deriving DecidableEq

/-- `full_image_analysis(image_path, user_id)` (lines 324-389).  `img` abstracts
the two pre-call validations (file exists, `Image.verify()`): `.error e` means
one of them raised with message `e`, taking the `except` branch (lines 375-389,
whose `nutrition_info` joins with the literal two-character `\\n` of the source);
`.ok ()` means the image was readable and the pipeline ran with the given
attempt outcomes. -/
def full_image_analysis (img : Except String Unit) (a1 a2 a3 basic : Attempt)
    (user_id : String) : AnalysisResult :=
  match img with
  | Except.error e =>
    { dish_prediction := "Analysis failed: " ++ e
      image_description := "Analysis error | 0 | g | " ++ e
      hidden_ingredients := "Analysis error | 0 | g | " ++ e
      nutrition_info :=
        "Calories | 0 | kcal | Analysis failed: " ++ e ++ "\\nProtein | 0 | g | Analysis failed: " ++
        e ++ "\\nFat | 0 | g | Analysis failed: " ++ e ++ "\\nCarbohydrates | 0 | g | Analysis failed: " ++
        e ++ "\\nFiber | 0 | g | Analysis failed: " ++ e ++ "\\nSugar | 0 | g | Analysis failed: " ++
        e ++ "\\nSodium | 0 | mg | Analysis failed: " ++ e
      user_id := user_id
      error := some e }
  | Except.ok _ =>
    let parsed := parse_dynamic_response (analyze_image_with_gemini_dynamic a1 a2 a3 basic)
    { dish_prediction := parsed.dish_name
      image_description := parsed.visible_ingredients
      hidden_ingredients := parsed.hidden_ingredients
      nutrition_info := parsed.nutrition_info
      user_id := user_id
      error := none }

/-! ### `recalculate_nutrition_enhanced` (src/model_pipeline.py lines 392-479) -/

/-- The fallback block of the recalculation `except` branch (lines 473-479),
joined with real newlines in the source. -/
def recalc_fallback (error_msg : String) : String :=
  "Calories | 0 | kcal | Recalculation failed: " ++ error_msg ++
  "\nProtein | 0 | g | Recalculation failed: " ++ error_msg ++
  "\nFat | 0 | g | Recalculation failed: " ++ error_msg ++
  "\nCarbohydrates | 0 | g | Recalculation failed: " ++ error_msg ++
  "\nFiber | 0 | g | Recalculation failed: " ++ error_msg ++
  "\nSugar | 0 | g | Recalculation failed: " ++ error_msg ++
  "\nSodium | 0 | mg | Recalculation failed: " ++ error_msg

/-- One iteration of the capture loop (lines 448-456): the marker line switches
capturing on; afterwards every stripped line containing `'|'` with at least 3
columns is collected. -/
def captureStep (st : Bool × List String) (raw : String) : Bool × List String :=
  let line := pyStrip raw
  if pyIn "NUTRITION ANALYSIS:" line then (true, st.2)
  else if st.1 ∧ pyHasChar line '|' ∧ 3 ≤ ((pySplit '|' line).map pyStrip).length then
    (st.1, st.2 ++ [line])
  else st

/-- `recalculate_nutrition_enhanced(ingredients_text)` (lines 392-479).  The
prompt is built from `ingredients_text` but the returned block depends only on
the model call's outcome, abstracted as `model`.  Note the source joins the
captured lines with `'\\n'` (line 459): the literal two-character sequence
backslash + n, not a newline. -/
def recalculate_nutrition_enhanced (model : Attempt) : String :=
  match model with
  | Attempt.raises e => recalc_fallback e
  | Attempt.returns t =>
    if t = "" then recalc_fallback "Empty response from Gemini API"
    else if pyIn "NUTRITION ANALYSIS:" t then
      let nutrition_lines := ((pySplit '\n' t).foldl captureStep (false, [])).2
      if nutrition_lines = [] then t else pyJoin "\\n" nutrition_lines
    else t

/-! ### Image validation and the `/analyze` endpoint (src/model_pipeline.py
lines 482-501, src/app.py lines 194-310) -/

/-- The image seen by `validate_image_for_analysis`: either `Image.open` raises
with a message, or it yields a width, height and format string. -/
inductive ImageFile where
  | unreadable (msg : String)
  | img (width height : Nat) (format : String)
deriving DecidableEq

/-- `validate_image_for_analysis(image_path)` (lines 482-501).  Note the check
order of the source: the oversize check returns `True` before the format check
runs, so images wider or taller than 4000 px are never format-checked. -/
def validate_image_for_analysis : ImageFile → Bool × String
  | ImageFile.unreadable m => (false, "Image validation failed: " ++ m)
  | ImageFile.img w h f =>
    if w < 100 ∨ h < 100 then (false, "Image too small for analysis")
    else if 4000 < w ∨ 4000 < h then (true, "Image will be resized for analysis")
    else if ¬(f = "JPEG" ∨ f = "PNG" ∨ f = "WEBP") then
      (false, "Unsupported image format: " ++ f)
    else (true, "Image is suitable for analysis")

/-- Outcome of the pipeline run inside the endpoint's one-worker executor:
`future.result(timeout=90)` raised `TimeoutError`, or completed with a result. -/
inductive PipelineOutcome where
  | timeout
  | completes (r : AnalysisResult)
deriving DecidableEq

/-- An HTTP response body: an ad-hoc error/suggestion JSON object, or the
serialized analysis result. -/
inductive Body where
  | errJson (pairs : List (String × String))
  | resultJson (r : AnalysisResult)
deriving DecidableEq

/-- Is the body a serialized `AnalysisResult` (as opposed to an error object)? -/
def isResultJson : Body → Bool
  | Body.errJson _ => false
  | Body.resultJson _ => true

/-- The `/analyze` endpoint (src/app.py lines 194-310) from the size checks on
(the missing-image-part check is upstream of every input modelled here).
Returns the pair (HTTP body, HTTP status code) together with the number of
outbound model calls made: the pipeline only runs after every gate passes, so a
rejected request makes zero calls and a submitted pipeline makes `callsIfRun`. -/
def analyze_endpoint (fileSize : Nat) (image : ImageFile) (user_id : String)
    (outcome : PipelineOutcome) (callsIfRun : Nat) : (Body × Nat) × Nat :=
  if 10 * 1024 * 1024 < fileSize then
    ((Body.errJson [("error", "Image too large. Please use an image under 10MB")], 413), 0)
  else if fileSize < 1024 then
    ((Body.errJson [("error", "Image too small. Please use a clearer image")], 400), 0)
  else
    match validate_image_for_analysis image with
    | (false, msg) => ((Body.errJson [("error", "Invalid image: " ++ msg)], 400), 0)
    | (true, _) =>
      match outcome with
      | PipelineOutcome.timeout =>
        ((Body.errJson
            [("error", "Analysis timeout"),
             ("suggestion", "Please try with a simpler or clearer image")], 408), callsIfRun)
      | PipelineOutcome.completes r =>
        match r.error with
        | some e =>
          ((Body.errJson
              [("error", "Analysis failed: " ++ e),
               ("suggestion", "Please try with a clearer image of food")], 500), callsIfRun)
        | none =>
          if pyStartsWith (pyLower r.dish_prediction) "analysis failed" ∨
              pyStartsWith (pyLower r.dish_prediction) "could not identify" ∨
              pyStartsWith (pyLower r.dish_prediction) "unable to analyze" then
            ((Body.errJson
                [("error", "Unable to analyze this image"),
                 ("suggestion", "Please ensure the image clearly shows food items")], 422),
             callsIfRun)
          else ((Body.resultJson { r with user_id := user_id }, 200), callsIfRun)

/-! ## Helper lemmas -/

theorem data_append (a b : String) : (a ++ b).data = a.data ++ b.data := rfl

theorem eq_empty_of_data_nil {a : String} (h : a.data = []) : a = "" := by
  cases a
  simp_all

theorem append_ne_empty_left (a b : String) (h : a ≠ "") : a ++ b ≠ "" := by
  intro hc
  apply h
  have hd : a.data ++ b.data = [] := by
    have h2 := congrArg String.data hc
    simpa [data_append] using h2
  exact eq_empty_of_data_nil (List.append_eq_nil.mp hd).1

theorem append_ne_empty_right (a b : String) (h : b ≠ "") : a ++ b ≠ "" := by
  intro hc
  apply h
  have hd : a.data ++ b.data = [] := by
    have h2 := congrArg String.data hc
    simpa [data_append] using h2
  exact eq_empty_of_data_nil (List.append_eq_nil.mp hd).2

theorem pyJoin_ne_of_head (x : String) (xs : List String) (hx : x ≠ "") :
    pyJoin "\n" (x :: xs) ≠ "" := by
  cases xs with
  | nil => simpa [pyJoin] using hx
  | cons y ys =>
    show x ++ "\n" ++ pyJoin "\n" (y :: ys) ≠ ""
    exact append_ne_empty_left _ _ (append_ne_empty_right _ _ (by decide))

theorem pyJoin_ne_of_pair (x y : String) (ys : List String) :
    pyJoin "\n" (x :: y :: ys) ≠ "" := by
  show x ++ "\n" ++ pyJoin "\n" (y :: ys) ≠ ""
  exact append_ne_empty_left _ _ (append_ne_empty_right _ _ (by decide))

theorem length_filter_add_length_filter_not {α : Type} (l : List α) (p : α → Bool) :
    (l.filter p).length + (l.filter (fun a => !(p a))).length = l.length := by
  induction l with
  | nil => rfl
  | cons a l ih =>
    by_cases h : p a <;> simp [List.filter_cons, h] <;> omega

theorem nodup_subset_length {α : Type} [DecidableEq α] {l₁ l₂ : List α} (h1 : l₁.Nodup)
    (h2 : ∀ a ∈ l₁, a ∈ l₂) : l₁.length ≤ l₂.length := by
  calc l₁.length = l₁.toFinset.card := (List.toFinset_card_of_nodup h1).symm
    _ ≤ l₂.toFinset.card := by
        apply Finset.card_le_card
        intro a ha
        exact List.mem_toFinset.mpr (h2 a (List.mem_toFinset.mp ha))
    _ ≤ l₂.length := List.toFinset_card_le l₂

/-! ## Lemmas about the required-nutrient completion step -/

theorem synthLine_name : ∀ n ∈ required_nutrients, lineName (synthLine n) = pyLower n := by
  decide

theorem synthLine_bar : ∀ n ∈ required_nutrients, pyHasChar (synthLine n) '|' = true := by
  decide

theorem required_lower_nodup : (required_nutrients.map pyLower).Nodup := by decide

theorem existing_nutrients_append (a b : List String) :
    existing_nutrients (a ++ b) = existing_nutrients a ++ existing_nutrients b := by
  simp [existing_nutrients, List.filter_append]

theorem ensure_covers (ls : List String) :
    ∀ n ∈ required_nutrients, ∃ l ∈ ensure_required_nutrients ls, lineName l = pyLower n := by
  intro n hn
  by_cases h : pyLower n ∈ existing_nutrients ls
  · obtain ⟨l, hl, hEq⟩ := List.mem_map.mp h
    exact ⟨l, List.mem_append_left _ (List.mem_of_mem_filter hl), hEq⟩
  · refine ⟨synthLine n, List.mem_append_right _ ?_, synthLine_name n hn⟩
    exact List.mem_map_of_mem synthLine (List.mem_filter.mpr ⟨hn, by simp [h]⟩)

theorem ensure_length (ls : List String) : 7 ≤ (ensure_required_nutrients ls).length := by
  have hpart := length_filter_add_length_filter_not required_nutrients
    (fun n => decide (pyLower n ∈ existing_nutrients ls))
  have hle : (required_nutrients.filter
      (fun n => decide (pyLower n ∈ existing_nutrients ls))).length ≤ ls.length := by
    have hnd : ((required_nutrients.filter
        (fun n => decide (pyLower n ∈ existing_nutrients ls))).map pyLower).Nodup :=
      required_lower_nodup.sublist ((List.filter_sublist _).map pyLower)
    have hsub : ∀ a ∈ (required_nutrients.filter
        (fun n => decide (pyLower n ∈ existing_nutrients ls))).map pyLower,
        a ∈ existing_nutrients ls := by
      intro a ha
      obtain ⟨n, hn, rfl⟩ := List.mem_map.mp ha
      have := (List.mem_filter.mp hn).2
      simpa using this
    calc (required_nutrients.filter
          (fun n => decide (pyLower n ∈ existing_nutrients ls))).length
        = ((required_nutrients.filter
            (fun n => decide (pyLower n ∈ existing_nutrients ls))).map pyLower).length := by
          simp
      _ ≤ (existing_nutrients ls).length := nodup_subset_length hnd hsub
      _ = (ls.filter (fun l => pyHasChar l '|')).length := by simp [existing_nutrients]
      _ ≤ ls.length := List.length_filter_le _ _
  have hlen : (ensure_required_nutrients ls).length =
      ls.length + (required_nutrients.filter
        (fun n => !(decide (pyLower n ∈ existing_nutrients ls)))).length := by
    simp [ensure_required_nutrients]
  have h7 : required_nutrients.length = 7 := rfl
  omega

theorem ensure_take (ls : List String) :
    (ensure_required_nutrients ls).take ls.length = ls :=
  List.take_left ls _

theorem ensure_drop_synth (ls : List String) :
    ((ensure_required_nutrients ls).drop ls.length).all isSynthLine = true := by
  have hd : (ensure_required_nutrients ls).drop ls.length =
      (required_nutrients.filter
        (fun n => !(decide (pyLower n ∈ existing_nutrients ls)))).map synthLine :=
    List.drop_left ls _
  rw [hd, List.all_eq_true]
  intro l hl
  obtain ⟨n, hn, rfl⟩ := List.mem_map.mp hl
  exact List.any_eq_true.mpr ⟨n, List.mem_of_mem_filter hn, beq_iff_eq.mpr rfl⟩

/-! ## Lemmas about the name-keyed dict of `parse_to_dict` -/

theorem dictKeys_insert_mem {k : String} {v : PyRecord} {d : List (String × PyRecord)}
    (h : k ∈ dictKeys d) : dictKeys (dictInsert k v d) = dictKeys d := by
  induction d with
  | nil => simp [dictKeys] at h
  | cons e d ih =>
    obtain ⟨k2, v2⟩ := e
    by_cases he : k2 = k
    · simp [dictInsert, he, dictKeys]
    · have hmem : k ∈ dictKeys d := by
        rcases (by simpa [dictKeys] using h : k = k2 ∨ k ∈ List.map Prod.fst d) with h1 | h2
        · exact absurd h1.symm he
        · simpa [dictKeys] using h2
      have hstep : dictInsert k v ((k2, v2) :: d) = (k2, v2) :: dictInsert k v d := by
        simp [dictInsert, he]
      simp only [hstep, dictKeys, List.map_cons]
      rw [show List.map Prod.fst (dictInsert k v d) = dictKeys (dictInsert k v d) from rfl,
        ih hmem, dictKeys]

theorem dictInsert_fresh {k : String} {v : PyRecord} {d : List (String × PyRecord)}
    (h : k ∉ dictKeys d) : dictInsert k v d = d ++ [(k, v)] := by
  induction d with
  | nil => rfl
  | cons e d ih =>
    cases e
    simp_all [dictInsert, dictKeys]
    intro hc
    simp_all

theorem dictKeys_append (d₁ d₂ : List (String × PyRecord)) :
    dictKeys (d₁ ++ d₂) = dictKeys d₁ ++ dictKeys d₂ := by
  simp [dictKeys]

theorem dictKeys_insert_toFinset (k : String) (v : PyRecord) (d : List (String × PyRecord)) :
    (dictKeys (dictInsert k v d)).toFinset = insert k (dictKeys d).toFinset := by
  by_cases h : k ∈ dictKeys d
  · rw [dictKeys_insert_mem h]
    exact (Finset.insert_eq_self.mpr (List.mem_toFinset.mpr h)).symm
  · rw [dictInsert_fresh h, dictKeys_append]
    ext a
    simp [dictKeys, or_comm]

theorem dictKeys_insert_nodup {k : String} {v : PyRecord} {d : List (String × PyRecord)}
    (h : (dictKeys d).Nodup) : (dictKeys (dictInsert k v d)).Nodup := by
  by_cases hm : k ∈ dictKeys d
  · rw [dictKeys_insert_mem hm]
    exact h
  · rw [dictInsert_fresh hm, dictKeys_append]
    have h1 : dictKeys [(k, v)] = [k] := rfl
    rw [h1, List.nodup_append]
    refine ⟨h, List.nodup_singleton k, ?_⟩
    intro a ha hb
    rw [List.mem_singleton] at hb
    subst hb
    exact hm ha

theorem parse_fold_invariant (lines : List String) :
    ∀ d, (dictKeys d).Nodup →
      (dictKeys (lines.foldl parseStep d)).Nodup ∧
      (dictKeys (lines.foldl parseStep d)).toFinset =
        (dictKeys d).toFinset ∪
          (lines.filterMap (fun l => (lineRecord? l).map Prod.fst)).toFinset := by
  induction lines with
  | nil =>
    intro d h
    exact ⟨h, by simp⟩
  | cons l ls ih =>
    intro d h
    cases hlr : lineRecord? l with
    | none =>
      have hstep : parseStep d l = d := by simp [parseStep, hlr]
      simpa [List.foldl_cons, hstep, hlr] using ih d h
    | some kv =>
      have hstep : parseStep d l = dictInsert kv.1 kv.2 d := by simp [parseStep, hlr]
      have ih2 := ih (dictInsert kv.1 kv.2 d) (dictKeys_insert_nodup h)
      refine ⟨by simpa [List.foldl_cons, hstep] using ih2.1, ?_⟩
      rw [List.foldl_cons, hstep, ih2.2, dictKeys_insert_toFinset]
      have hfm : List.filterMap (fun l => (lineRecord? l).map Prod.fst) (l :: ls) =
          kv.1 :: List.filterMap (fun l => (lineRecord? l).map Prod.fst) ls := by
        simp [List.filterMap_cons, hlr]
      rw [hfm, List.toFinset_cons]
      ext a
      simp

theorem dictLookup_insert_self (k : String) (v : PyRecord) (d : List (String × PyRecord)) :
    dictLookup k (dictInsert k v d) = some v := by
  induction d with
  | nil => simp [dictInsert, dictLookup]
  | cons e d ih =>
    obtain ⟨k2, v2⟩ := e
    by_cases he : k2 = k
    · subst he
      simp [dictInsert, dictLookup]
    · have hstep : dictInsert k v ((k2, v2) :: d) = (k2, v2) :: dictInsert k v d := by
        simp [dictInsert, he]
      rw [hstep]
      simp [dictLookup, he, ih]

theorem dictLookup_insert_ne (k k2 : String) (v : PyRecord) (d : List (String × PyRecord))
    (h : k2 ≠ k) : dictLookup k2 (dictInsert k v d) = dictLookup k2 d := by
  induction d with
  | nil =>
    simp only [dictInsert, dictLookup]
    rw [if_neg (fun hc => h hc.symm)]
  | cons e d ih =>
    obtain ⟨k3, v3⟩ := e
    by_cases he : k3 = k
    · subst he
      simp only [dictInsert, if_pos rfl, dictLookup]
      rw [if_neg (fun hc => h hc.symm), if_neg (fun hc => h hc.symm)]
    · have hstep : dictInsert k v ((k3, v3) :: d) = (k3, v3) :: dictInsert k v d := by
        simp [dictInsert, he]
      rw [hstep]
      by_cases he2 : k3 = k2
      · simp [dictLookup, he2]
      · simp [dictLookup, he2, ih]

theorem lookup_fold (name : String) (lines : List String) :
    ∀ d, dictLookup name (lines.foldl parseStep d) =
      (((lines.filterMap lineRecord?).reverse.find?
          (fun r => r.1 == name)).map Prod.snd).or (dictLookup name d) := by
  induction lines with
  | nil => intro d; simp
  | cons l ls ih =>
    intro d
    cases hlr : lineRecord? l with
    | none =>
      have hstep : parseStep d l = d := by simp [parseStep, hlr]
      simpa [List.foldl_cons, hstep, hlr] using ih d
    | some kv =>
      have hstep : parseStep d l = dictInsert kv.1 kv.2 d := by simp [parseStep, hlr]
      rw [List.foldl_cons, hstep, ih]
      have hfm : (List.filterMap lineRecord? (l :: ls)).reverse =
          (List.filterMap lineRecord? ls).reverse ++ [kv] := by
        simp [hlr]
      rw [hfm, List.find?_append]
      cases hF : (List.filterMap lineRecord? ls).reverse.find? (fun r => r.1 == name) with
      | some r => simp [hF]
      | none =>
        by_cases hk : kv.1 = name
        · subst hk
          simp [hF, List.find?, dictLookup_insert_self]
        · have hbeq : (kv.1 == name) = false := by simpa using hk
          simp [hF, List.find?, hbeq,
            dictLookup_insert_ne kv.1 name kv.2 d (fun hc => hk hc.symm)]

theorem filter_key_le_one {d : List (String × PyRecord)} (h : (dictKeys d).Nodup)
    (name : String) : (d.filter (fun e => e.1 == name)).length ≤ 1 := by
  induction d with
  | nil => simp
  | cons e d ih =>
    rw [dictKeys, List.map_cons, List.nodup_cons] at h
    by_cases he : e.1 == name
    · have hnil : d.filter (fun e2 => e2.1 == name) = [] := by
        apply List.filter_eq_nil_iff.mpr
        intro a ha hbeq
        apply h.1
        have h1 : a.1 = name := by simpa using hbeq
        have h2 : e.1 = name := by simpa using he
        rw [show e.1 = a.1 from h2.trans h1.symm]
        exact List.mem_map_of_mem Prod.fst ha
      simp [List.filter_cons, he, hnil]
    · simp only [List.filter_cons, he, if_neg]
      simpa using ih h.2

/-! ## The parse-loop invariant: bucket lines are never empty -/

theorem stepLine_good (st : ParseState) (raw : String) (h : goodState st) :
    goodState (stepLine st raw) := by
  obtain ⟨hv, hh, hn⟩ := h
  by_cases h1 : pyStrip raw = ""
  · simpa [stepLine, h1] using ⟨hv, hh, hn⟩
  · have hgood : ∀ (xs : List String), (∀ a ∈ xs, a ≠ "") →
        ∀ a ∈ xs ++ [pyStrip raw], a ≠ "" := by
      intro xs hxs a ha
      rcases List.mem_append.mp ha with h2 | h2
      · exact hxs a h2
      · rw [List.mem_singleton] at h2
        subst h2
        exact h1
    simp only [stepLine]
    rw [if_neg h1]
    repeat' split
    all_goals first
      | exact ⟨hv, hh, hn⟩
      | exact ⟨hgood _ hv, hh, hn⟩
      | exact ⟨hv, hgood _ hh, hn⟩
      | exact ⟨hv, hh, hgood _ hn⟩

theorem foldl_stepLine_good (lines : List String) :
    ∀ st, goodState st → goodState (lines.foldl stepLine st) := by
  induction lines with
  | nil => exact fun st h => h
  | cons l ls ih => exact fun st h => ih _ (stepLine_good st l h)

theorem initState_good : goodState initState :=
  ⟨by simp [initState], by simp [initState], by simp [initState]⟩

/-! ## Claim C1 -/

/-- Claim C1, counterexample: two qualifying 4-column numeric lines that share a
name produce a single dict entry, so the output length (1) differs from the
count of qualifying input lines (2) — the claim as stated is false. -/
theorem parse_to_dict_duplicate_names_collapse :
    ((pySplit '\n' "A | 1 | g | first\nA | 2 | g | second").countP
      (fun l => (lineRecord? l).isSome)) = 2 ∧
    (parse_to_dict "A | 1 | g | first\nA | 2 | g | second").length = 1 := by
  decide

/-- Claim C1 (corrected): `parse_to_dict` produces one record per DISTINCT name
among the qualifying lines (4 columns after splitting on the pipe and stripping,
numeric quantity), because accumulation is name-keyed; hence the output length
equals the number of distinct qualifying names, and equals the count of
qualifying lines exactly when no name repeats. -/
theorem parse_to_dict_length_eq_distinct_names (t : String) :
    (parse_to_dict t).length = (qualifyingNames t).toFinset.card ∧
    ((qualifyingNames t).Nodup →
      (parse_to_dict t).length = (qualifyingNames t).length) := by
  have hinv := parse_fold_invariant (pySplit '\n' t) [] (by simp [dictKeys])
  rw [show (pySplit '\n' t).foldl parseStep [] = parse_to_dict t from rfl] at hinv
  have hkeys : (dictKeys (parse_to_dict t)).toFinset = (qualifyingNames t).toFinset := by
    simpa [dictKeys, qualifyingNames] using hinv.2
  have hlen : (parse_to_dict t).length = (dictKeys (parse_to_dict t)).length := by
    simp [dictKeys]
  constructor
  · rw [hlen, ← List.toFinset_card_of_nodup hinv.1, hkeys]
  · intro hq
    rw [hlen, ← List.toFinset_card_of_nodup hinv.1, hkeys,
      List.toFinset_card_of_nodup hq]

/-- Claim C1, witness: on the spec's concrete scenario (one qualifying line,
one dropped for column count, one dropped for a non-numeric quantity) the
qualifying names are distinct, so the output length equals the qualifying-line
count. -/
theorem parse_to_dict_length_eq_distinct_names_witness :
    (parse_to_dict
        "Rice | 200 | g | visible in bowl\nBadLine without pipes\nSalt | abc | g | seasoning").length =
      (qualifyingNames
        "Rice | 200 | g | visible in bowl\nBadLine without pipes\nSalt | abc | g | seasoning").length :=
  (parse_to_dict_length_eq_distinct_names _).2 (by decide)

/-! ## Claim C2 -/

/-- Claim C2 (confirmed): for every parsed nutrition-section line list, the
completion step returns at least 7 records, the lower-cased names of the fixed
vocabulary are all covered, the input records are kept unchanged as a prefix,
and every appended record is a synthesized sentinel line (value 0, canonical
unit, "Not determined from image" reasoning) for a missing required nutrient. -/
theorem ensure_required_nutrients_complete (ls : List String) :
    required_nutrients.all
      (fun n => (ensure_required_nutrients ls).any (fun l => lineName l == pyLower n)) = true ∧
    7 ≤ (ensure_required_nutrients ls).length ∧
    (ensure_required_nutrients ls).take ls.length = ls ∧
    ((ensure_required_nutrients ls).drop ls.length).all isSynthLine = true := by
  refine ⟨?_, ensure_length ls, ensure_take ls, ensure_drop_synth ls⟩
  rw [List.all_eq_true]
  intro n hn
  obtain ⟨l, hl, hEq⟩ := ensure_covers ls n hn
  exact List.any_eq_true.mpr ⟨l, hl, beq_iff_eq.mpr hEq⟩

/-! ## Claim C3 -/

/-- Claim C3, counterexample: the fallback text block substituted after all
retries fail is NOT independent of the particular error — the triggering error
message is interpolated into the block. -/
theorem generate_failure_response_depends_on_error :
    generate_failure_response "connection reset" ≠ generate_failure_response "DNS failure" := by
  decide

/-- Claim C3 (corrected): when every attempt of the pipeline stage raises a
transport error, `full_image_analysis` still returns a result mapping without
raising (no `error` key is set on this path), and the stage's text block equals
`generate_failure_response` applied to the final (basic-analysis) error — a
fixed template with the error message interpolated, not an error-independent
constant. -/
theorem full_analysis_transport_failure_fallback (e1 e2 e3 eb uid : String) :
    (full_image_analysis (Except.ok ()) (Attempt.raises e1) (Attempt.raises e2)
        (Attempt.raises e3) (Attempt.raises eb) uid).error = none ∧
    analyze_image_with_gemini_dynamic (Attempt.raises e1) (Attempt.raises e2)
        (Attempt.raises e3) (Attempt.raises eb) = generate_failure_response eb :=
  ⟨rfl, rfl⟩

/-! ## Claim C4 -/

/-- Claim C4, counterexample: on a pipeline timeout the endpoint does NOT hand
the caller a fallback `AnalysisResult` with `status=failure` — it returns an
error-object response with HTTP status 408. -/
theorem analyze_endpoint_timeout_not_result_json :
    isResultJson (analyze_endpoint 2048 (ImageFile.img 200 200 "JPEG") "u1"
        PipelineOutcome.timeout 1).1.1 = false ∧
    (analyze_endpoint 2048 (ImageFile.img 200 200 "JPEG") "u1"
        PipelineOutcome.timeout 1).1.2 = 408 := by
  decide

/-- Claim C4 (corrected): when the pipeline exceeds the 90-second budget inside
the one-worker executor, the endpoint catches the `TimeoutError` (it never
escapes: every outcome maps to a well-formed response) and returns the distinct
timeout error JSON (`error = "Analysis timeout"`) with HTTP status 408 — an
error response, not a `status=failure` fallback `AnalysisResult`. -/
theorem analyze_endpoint_timeout_is_error_response (fs : Nat) (img : ImageFile)
    (uid : String) (c : Nat) (h1 : ¬ 10 * 1024 * 1024 < fs) (h2 : ¬ fs < 1024)
    (h3 : (validate_image_for_analysis img).1 = true) :
    analyze_endpoint fs img uid PipelineOutcome.timeout c =
      ((Body.errJson [("error", "Analysis timeout"),
          ("suggestion", "Please try with a simpler or clearer image")], 408), c) := by
  unfold analyze_endpoint
  rw [if_neg h1, if_neg h2]
  rcases hv : validate_image_for_analysis img with ⟨b, msg⟩
  have hb : b = true := by
    rw [hv] at h3
    simpa using h3
  subst hb
  rfl

/-- Claim C4, witness: the timeout branch at a concrete valid request. -/
theorem analyze_endpoint_timeout_is_error_response_witness :
    analyze_endpoint 2048 (ImageFile.img 200 200 "JPEG") "u1" PipelineOutcome.timeout 0 =
      ((Body.errJson [("error", "Analysis timeout"),
          ("suggestion", "Please try with a simpler or clearer image")], 408), 0) :=
  analyze_endpoint_timeout_is_error_response 2048 (ImageFile.img 200 200 "JPEG") "u1" 0
    (by decide) (by decide) (by decide)

/-! ## Claim C5 -/

/-- Rejection characterization of `validate_image_for_analysis`: undersized
images, and disallowed-format images that are not oversized, fail validation. -/
theorem validate_rejects {w h : Nat} {f : String}
    (hrej : (w < 100 ∨ h < 100) ∨
      (w ≤ 4000 ∧ h ≤ 4000 ∧ ¬(f = "JPEG" ∨ f = "PNG" ∨ f = "WEBP"))) :
    (validate_image_for_analysis (ImageFile.img w h f)).1 = false := by
  simp only [validate_image_for_analysis]
  split_ifs with hc1 hc2 hc3
  · rfl
  · rcases hrej with hs | ⟨hw4, hh4, _⟩
    · exact absurd hs hc1
    · rcases hc2 with h4 | h4 <;> omega
  · rcases hrej with hs | ⟨_, _, hfmt⟩
    · exact absurd hs hc1
    · exact absurd hc3 hfmt
  · rfl

/-- A failed validation makes the endpoint return the 400 invalid-image error
before the executor is ever started, so zero outbound model calls are made. -/
theorem analyze_endpoint_rejected (fs : Nat) (img : ImageFile) (uid : String)
    (o : PipelineOutcome) (c : Nat) (h1 : ¬ 10 * 1024 * 1024 < fs) (h2 : ¬ fs < 1024)
    (hval : (validate_image_for_analysis img).1 = false) :
    analyze_endpoint fs img uid o c =
      ((Body.errJson
          [("error", "Invalid image: " ++ (validate_image_for_analysis img).2)], 400), 0) := by
  unfold analyze_endpoint
  rw [if_neg h1, if_neg h2]
  rcases hv : validate_image_for_analysis img with ⟨b, msg⟩
  have hb : b = false := by
    rw [hv] at hval
    simpa using hval
  subst hb
  rfl

/-- Claim C5 (corrected): an image below the 100×100 minimum, or with a format
outside {JPEG, PNG, WEBP} whose dimensions are at most 4000, is rejected
immediately with the invalid-image error and zero outbound model calls.  (The
original claim is false for disallowed formats: the source returns early for
images wider or taller than 4000 px, skipping the format check.) -/
theorem analyze_endpoint_rejects_bad_image (fs w h : Nat) (f uid : String)
    (o : PipelineOutcome) (c : Nat) (h1 : ¬ 10 * 1024 * 1024 < fs) (h2 : ¬ fs < 1024)
    (hrej : (w < 100 ∨ h < 100) ∨
      (w ≤ 4000 ∧ h ≤ 4000 ∧ ¬(f = "JPEG" ∨ f = "PNG" ∨ f = "WEBP"))) :
    analyze_endpoint fs (ImageFile.img w h f) uid o c =
      ((Body.errJson [("error", "Invalid image: " ++
          (validate_image_for_analysis (ImageFile.img w h f)).2)], 400), 0) :=
  analyze_endpoint_rejected fs _ uid o c h1 h2 (validate_rejects hrej)

/-- Claim C5, witness: the spec's 50×50 scenario is rejected with zero calls. -/
theorem analyze_endpoint_rejects_bad_image_witness :
    analyze_endpoint 2048 (ImageFile.img 50 50 "JPEG") "u1" PipelineOutcome.timeout 5 =
      ((Body.errJson [("error", "Invalid image: Image too small for analysis")], 400), 0) :=
  analyze_endpoint_rejects_bad_image 2048 50 50 "JPEG" "u1" PipelineOutcome.timeout 5
    (by decide) (by decide) (Or.inl (Or.inl (by decide)))

/-- Claim C5, counterexample: a 5000×5000 image in the disallowed BMP format
passes validation (the oversize early-return skips the format check), so the
endpoint proceeds, makes its model calls, and answers 200 — refuting the claim
that every allowed-format failure is rejected with zero outbound calls. -/
theorem oversized_bad_format_not_rejected :
    validate_image_for_analysis (ImageFile.img 5000 5000 "BMP") =
      (true, "Image will be resized for analysis") ∧
    (analyze_endpoint 2048 (ImageFile.img 5000 5000 "BMP") "u1"
        (PipelineOutcome.completes ⟨"Pasta", "a", "b", "c", "u1", none⟩) 3).2 = 3 ∧
    (analyze_endpoint 2048 (ImageFile.img 5000 5000 "BMP") "u1"
        (PipelineOutcome.completes ⟨"Pasta", "a", "b", "c", "u1", none⟩) 3).1.2 = 200 := by
  decide

/-! ## Claim C6 -/

/-- Claim C6, counterexample: on empty input the parser does NOT return an empty
ingredient sequence — it substitutes a synthesized placeholder record line. -/
theorem parse_dynamic_response_empty_not_empty_sequence :
    (parse_dynamic_response "").visible_ingredients ≠ "" ∧
    (parse_dynamic_response "").hidden_ingredients ≠ "" := by
  decide

set_option maxRecDepth 40000 in
/-- Claim C6 (corrected): for the empty input text, `parse_dynamic_response`
returns the default dish name, all seven synthesized default nutrient records,
and a single synthesized placeholder record (not an empty sequence) for each of
the visible- and hidden-ingredient fields; no field is null or empty. -/
theorem parse_dynamic_response_empty_input :
    parse_dynamic_response "" =
      ⟨"Unidentified food item",
       "Food item visible | 0 | g | Could not identify specific ingredients",
       "No hidden ingredients identified | 0 | g | Could not determine cooking method",
       "Calories | 0 | kcal | Not determined from image\nProtein | 0 | g | Not determined from image\nFat | 0 | g | Not determined from image\nCarbohydrates | 0 | g | Not determined from image\nFiber | 0 | g | Not determined from image\nSugar | 0 | g | Not determined from image\nSodium | 0 | mg | Not determined from image"⟩ := by
  decide

/-! ## Claim C7 -/

/-- Claim C7 (confirmed): the required-nutrient completion step is idempotent —
applied to its own output it appends nothing, so the record list and in
particular the sequence of (case-normalized) nutrient names are unchanged: no
new records and no new duplicate names are introduced. -/
theorem ensure_required_nutrients_idempotent (ls : List String) :
    ensure_required_nutrients (ensure_required_nutrients ls) = ensure_required_nutrients ls ∧
    (ensure_required_nutrients (ensure_required_nutrients ls)).map lineName =
      (ensure_required_nutrients ls).map lineName := by
  have hnil : required_nutrients.filter
      (fun n => !(decide (pyLower n ∈ existing_nutrients (ensure_required_nutrients ls)))) = [] := by
    apply List.filter_eq_nil_iff.mpr
    intro n hn hbn
    have hmem : pyLower n ∈ existing_nutrients (ensure_required_nutrients ls) := by
      rw [show ensure_required_nutrients ls = ls ++ (required_nutrients.filter
          (fun n2 => !(decide (pyLower n2 ∈ existing_nutrients ls)))).map synthLine from rfl,
        existing_nutrients_append]
      by_cases h : pyLower n ∈ existing_nutrients ls
      · exact List.mem_append_left _ h
      · apply List.mem_append_right
        have hm1 : synthLine n ∈ (required_nutrients.filter
            (fun n2 => !(decide (pyLower n2 ∈ existing_nutrients ls)))).map synthLine :=
          List.mem_map_of_mem synthLine (List.mem_filter.mpr ⟨hn, by simp [h]⟩)
        have hm2 : synthLine n ∈ ((required_nutrients.filter
            (fun n2 => !(decide (pyLower n2 ∈ existing_nutrients ls)))).map synthLine).filter
            (fun l => pyHasChar l '|') :=
          List.mem_filter.mpr ⟨hm1, synthLine_bar n hn⟩
        simp only [existing_nutrients]
        have hm3 := List.mem_map_of_mem lineName hm2
        rwa [synthLine_name n hn] at hm3
    simp [hmem] at hbn
  have h1 : ensure_required_nutrients (ensure_required_nutrients ls) =
      ensure_required_nutrients ls := by
    have hdef : ensure_required_nutrients (ensure_required_nutrients ls) =
        ensure_required_nutrients ls ++ (required_nutrients.filter
          (fun n => !(decide
            (pyLower n ∈ existing_nutrients (ensure_required_nutrients ls))))).map synthLine :=
      rfl
    rw [hdef, hnil]
    simp
  exact ⟨h1, by rw [h1]⟩

/-! ## Claim C8 -/

/-- Claim C8, counterexample: the nutrition-section parser of
`parse_dynamic_response` keeps BOTH lines of a duplicated nutrient name in its
final output (it accumulates a list, not a name-keyed mapping), refuting
"exactly one record per name" for this parser. -/
theorem parse_dynamic_response_keeps_duplicate_nutrients :
    ((pySplit '\n' (parse_dynamic_response
        "NUTRITION ANALYSIS:\nCalories | 100 | kcal | a\nCalories | 200 | kcal | b").nutrition_info).countP
      (fun l => lineName l == "calories")) = 2 := by
  decide

/-- Claim C8 (corrected): last-write-wins holds for the name-keyed parser
`parse_to_dict` (food-backend variant): each name occurs on at most one dict
entry, and the stored record is exactly the one of the LAST qualifying line
with that name.  (The dynamic parser `parse_dynamic_response` instead keeps all
duplicates — see the counterexample.) -/
theorem parse_to_dict_last_write_wins (t name : String) :
    ((parse_to_dict t).filter (fun e => e.1 == name)).length ≤ 1 ∧
    dictLookup name (parse_to_dict t) =
      ((qualifyingRecords t).reverse.find? (fun r => r.1 == name)).map Prod.snd := by
  constructor
  · exact filter_key_le_one
      (parse_fold_invariant (pySplit '\n' t) [] (by simp [dictKeys])).1 name
  · have h := lookup_fold name (pySplit '\n' t) []
    rw [show (pySplit '\n' t).foldl parseStep [] = parse_to_dict t from rfl] at h
    simpa [qualifyingRecords, dictLookup] using h

/-! ## Claim C9 -/

set_option maxRecDepth 40000 in
/-- Claim C9 (code bug): the recalculation entry point is supposed to return a
newline-joined nutrition block of 4-field lines, but the source joins the
captured lines with `'\\n'` — the literal two-character sequence backslash+n —
so the returned block contains no newline at all (first two conjuncts), and its
capture filter accepts 3-field lines, which are returned as-is (third
conjunct). -/
theorem recalculate_nutrition_literal_backslash_join :
    recalculate_nutrition_enhanced (Attempt.returns
        "NUTRITION ANALYSIS:\nCalories | 100 | kcal | rice\nProtein | 3 | g | rice") =
      "Calories | 100 | kcal | rice\\nProtein | 3 | g | rice" ∧
    pyHasChar (recalculate_nutrition_enhanced (Attempt.returns
        "NUTRITION ANALYSIS:\nCalories | 100 | kcal | rice\nProtein | 3 | g | rice")) '\n'
      = false ∧
    recalculate_nutrition_enhanced (Attempt.returns
        "NUTRITION ANALYSIS:\nCalories | 100 | kcal") = "Calories | 100 | kcal" := by
  decide

/-! ## Claim C10 -/

theorem parse_dish_ne (s : String) : (parse_dynamic_response s).dish_name ≠ "" := by
  simp only [parse_dynamic_response]
  split_ifs <;> first | decide | assumption

theorem parse_vis_ne (s : String) : (parse_dynamic_response s).visible_ingredients ≠ "" := by
  have hst := foldl_stepLine_good (pySplit '\n' (pyStrip s)) initState initState_good
  simp only [parse_dynamic_response]
  by_cases h0 : (List.foldl stepLine initState (pySplit '\n' (pyStrip s))).vis = []
  · rw [if_pos h0]
    decide
  · rw [if_neg h0]
    rcases hvis : (List.foldl stepLine initState (pySplit '\n' (pyStrip s))).vis with _ | ⟨x, xs⟩
    · exact absurd hvis h0
    · exact pyJoin_ne_of_head x xs
        (hst.1 x (by rw [hvis]; exact List.mem_cons_self x xs))

theorem parse_hid_ne (s : String) : (parse_dynamic_response s).hidden_ingredients ≠ "" := by
  have hst := foldl_stepLine_good (pySplit '\n' (pyStrip s)) initState initState_good
  simp only [parse_dynamic_response]
  by_cases h0 : (List.foldl stepLine initState (pySplit '\n' (pyStrip s))).hid = []
  · rw [if_pos h0]
    decide
  · rw [if_neg h0]
    rcases hhid : (List.foldl stepLine initState (pySplit '\n' (pyStrip s))).hid with _ | ⟨x, xs⟩
    · exact absurd hhid h0
    · exact pyJoin_ne_of_head x xs
        (hst.2.1 x (by rw [hhid]; exact List.mem_cons_self x xs))

theorem parse_nut_ne (s : String) : (parse_dynamic_response s).nutrition_info ≠ "" := by
  simp only [parse_dynamic_response]
  rcases hcase : ensure_required_nutrients
      (List.foldl stepLine initState (pySplit '\n' (pyStrip s))).nut with _ | ⟨a, tail⟩
  · exfalso
    have h7 := ensure_length (List.foldl stepLine initState (pySplit '\n' (pyStrip s))).nut
    rw [hcase] at h7
    simp at h7
  · rcases tail with _ | ⟨b, tl⟩
    · exfalso
      have h7 := ensure_length (List.foldl stepLine initState (pySplit '\n' (pyStrip s))).nut
      rw [hcase] at h7
      simp at h7
    · exact pyJoin_ne_of_pair a b tl

/-- Claim C10 (confirmed): `parse_dynamic_response` is total (modelled by a total
function: the Python `try` body raises on no string input), its result always
has exactly the four keys of `ParsedResponse` (fixed by the structure), each
bound to a non-empty string — in particular the dish name is never empty — and
the internal-exception branch `parse_failure_response` also yields the complete
four-key shape with non-empty values. -/
theorem parse_dynamic_response_total_shape (s e : String) :
    (parse_dynamic_response s).dish_name ≠ "" ∧
    (parse_dynamic_response s).visible_ingredients ≠ "" ∧
    (parse_dynamic_response s).hidden_ingredients ≠ "" ∧
    (parse_dynamic_response s).nutrition_info ≠ "" ∧
    (parse_failure_response e).dish_name ≠ "" ∧
    (parse_failure_response e).visible_ingredients ≠ "" ∧
    (parse_failure_response e).hidden_ingredients ≠ "" ∧
    (parse_failure_response e).nutrition_info ≠ "" := by
  refine ⟨parse_dish_ne s, parse_vis_ne s, parse_hid_ne s, parse_nut_ne s, ?_, ?_, ?_, ?_⟩
  · show ("Analysis parsing failed" : String) ≠ ""
    decide
  · exact append_ne_empty_left _ _ (by decide)
  · exact append_ne_empty_left _ _ (by decide)
  · show ("Calories | 0 | kcal | Parsing failed\nProtein | 0 | g | Parsing failed\nFat | 0 | g | Parsing failed\nCarbohydrates | 0 | g | Parsing failed\nFiber | 0 | g | Parsing failed\nSugar | 0 | g | Parsing failed\nSodium | 0 | mg | Parsing failed" : String) ≠ ""
    decide

/-- Claim C10, witness: the shape facts instantiated at the empty input and a
concrete exception message. -/
theorem parse_dynamic_response_total_shape_witness :
    (parse_dynamic_response "").dish_name ≠ "" ∧
    (parse_failure_response "boom").dish_name ≠ "" :=
  ⟨(parse_dynamic_response_total_shape "" "boom").1,
   (parse_dynamic_response_total_shape "" "boom").2.2.2.2.1⟩

end FoodApp
